import Mathlib

/-!
Verification development for the excuse-generator core
(`src/generator.py`): a shallow embedding of the template catalog,
selector, context builder, renderer, length adjuster, the two public
operations `generate` / `rephrase`, and the `persist` logging routine,
together with theorems settling the specification claims.
-/

namespace ExcuseSpec

set_option maxRecDepth 8000

/-! ## Random source model

Python's `random.Random` is a deterministic pseudo-random generator:
`seed(s)` resets its state as a function of `s` alone, and
`choice(seq)` returns `seq[i]` for an index `i < len(seq)` derived
from the state, advancing the state.  The Mersenne-Twister stream
itself is irrelevant to the claims (they concern determinism under
seeding and selection from the resolved list), so the state
transition is modelled abstractly by a simple arithmetic mixer. -/

structure RandState where
  val : Nat

/-- Model of `random.Random.seed(s)`: the state is a function of the seed alone. -/
def seedState (s : Int) : RandState := ⟨s.natAbs⟩

/-- Abstract state advance performed by each draw. -/
def nextState (g : RandState) : RandState :=
  ⟨(g.val * 6364136223846793005 + 1442695040888963407) % (2 ^ 64)⟩

/-- Model of `random.choice(seq)`: an index below the length, derived from
the state; the empty-sequence case (an `IndexError` in Python) is modelled
by the default `""` and proved unreachable (claim C9). -/
def pyChoice (l : List String) (g : RandState) : String × RandState :=
  (l.getD (g.val % l.length) "", nextState g)

/-! ## datetime model

`datetime.now()` values are modelled by their broken-down fields.
`weekday` is the value of Python's `date.weekday()` (0 = Monday); it is
determined by the date fields, so `replace(hour=...)`/`replace(minute=...)`,
which keep the date fields, keep `weekday` as well. -/

structure PyDateTime where
  year : Nat
  month : Nat
  day : Nat
  weekday : Nat
  hour : Nat
  minute : Nat
  second : Nat
  microsecond : Nat

/-- Model of `now.replace(minute=m)`. -/
def replaceMinute (t : PyDateTime) (m : Nat) : PyDateTime := { t with minute := m }

/-- Model of `now.replace(hour=h)`. -/
def replaceHour (t : PyDateTime) (h : Nat) : PyDateTime := { t with hour := h }

/-- Decimal rendering left-padded with zeros to width `w` (strftime padding). -/
def pad (w : Nat) (n : Nat) : String :=
  let s := toString n
  String.mk (List.replicate (w - s.length) '0') ++ s

/-- strftime `%A`: full weekday name, from Python's `weekday()` numbering. -/
def dayName (w : Nat) : String :=
  (["Monday", "Tuesday", "Wednesday", "Thursday", "Friday", "Saturday", "Sunday"]).getD w ""

/-- strftime `%I`: hour on the 12-hour clock (1..12). -/
def hour12 (h : Nat) : Nat :=
  if h % 12 = 0 then 12 else h % 12

/-- strftime `%p`: AM for hours 0..11, PM for 12..23. -/
def ampm (h : Nat) : String := if h < 12 then "AM" else "PM"

/-- strftime `"%A %I:%M %p"` as used for high-specificity values. -/
def fmtDayClock (t : PyDateTime) : String :=
  dayName t.weekday ++ " " ++ pad 2 (hour12 t.hour) ++ ":" ++ pad 2 t.minute ++ " " ++ ampm t.hour

/-- strftime `"%A %I %p"` as used for the mid-specificity `new_time`. -/
def fmtDayHour (t : PyDateTime) : String :=
  dayName t.weekday ++ " " ++ pad 2 (hour12 t.hour) ++ " " ++ ampm t.hour

/-! ## Request -/

/-- The `ExcuseRequest` dataclass. -/
structure ExcuseRequest where
  category : String
  audience : String
  tone : String
  specificity : Int
  length : String
  custom_context : Option String := none
  seed : Option Int := none
  persist_history : Bool := false
  persist_dir : Option String := none

/-! ## Template catalog

The dict literal returned by `_load_templates`, as an insertion-ordered
association list: category → tone → templates. -/

/-- The built-in template catalog (`_load_templates`). -/
def templates : List (String × List (String × List String)) :=
  [ ("General",
      [ ("Professional",
          [ "Sorry for the short notice. Something unexpected came up, so I can't {action} by {timeframe}. I'll share a simple plan and new time.",
            "Apologies—an issue popped up and needs my attention. I'll update on {deliverable} by {new_time}." ]),
        ("Casual",
          [ "Sorry—something came up, so I can't {action} today. Can we do {new_time}?",
            "Hey, quick heads-up: I'm tied up last minute. Can we move {action} to {new_time}?" ]),
        ("Sincere",
          [ "Thanks for understanding. A personal thing came up, so I can't {action} as planned. I'll follow up by {new_time}." ]),
        ("Brief",
          [ "Sorry—unexpected issue. Can't {action} by {timeframe}. Update by {new_time}." ]),
        ("Light-hearted",
          [ "Looks like I double-booked myself. Can we move {action} to {new_time}?" ]) ]),
    ("Work Deadline",
      [ ("Professional",
          [ "I hit a blocker on {deliverable}. I won't make today's deadline. I'll send a simple plan and new ETA by {new_time}." ]),
        ("Sincere",
          [ "I'm sorry—something urgent slowed down {deliverable}. I'll focus on it and share a new time by {new_time}." ]),
        ("Brief",
          [ "Delay on {deliverable} due to a blocker. New ETA {new_time}." ]) ]),
    ("School Assignment",
      [ ("Professional",
          [ "I ran into an issue and need a short extension for {deliverable}. I can submit by {new_time} if that's okay." ]),
        ("Sincere",
          [ "A personal situation came up and I couldn't finish {deliverable}. May I submit by {new_time}?" ]) ]),
    ("Social Event",
      [ ("Casual",
          [ "I'm really sorry—I can't make it to {event} tonight. Can we catch up this weekend?" ]),
        ("Light-hearted",
          [ "My day did a plot twist. I have to miss {event}. Rain check for {new_time}?" ]) ]),
    ("Appointment",
      [ ("Professional",
          [ "I need to reschedule today's appointment due to a conflict. Could we move it to {new_time}?" ]) ]),
    ("Travel/Commute",
      [ ("Professional",
          [ "Travel delays are slowing me down. I should be there by {new_time}. Sorry for the hassle." ]),
        ("Brief",
          [ "Running late due to traffic. ETA {new_time}." ]) ]) ]

/-- Ordered-dict lookup: the value stored at the first matching key. -/
def lookupA {α : Type} : List (String × α) → String → Option α
  | [], _ => none
  | p :: rest, k => if p.1 = k then some p.2 else lookupA rest k

/-- `next(iter(tones))`: the first key of an insertion-ordered dict. -/
def firstKey (l : List (String × List String)) : String := (l.headD ("", [])).1

/-- The category actually used: `category if category in categories else "General"`. -/
def resolvedCat (cat : String) : String :=
  if (lookupA templates cat).isSome then cat else "General"

/-- The tone map of the resolved category (`categories[chosen_category]`). -/
def tonesOf (cat : String) : List (String × List String) :=
  (lookupA templates (resolvedCat cat)).getD []

/-- The tone actually used: `tone if tone in tones else next(iter(tones))`. -/
def resolvedTone (cat tone : String) : String :=
  if (lookupA (tonesOf cat) tone).isSome then tone else firstKey (tonesOf cat)

/-- The template list the selector draws from (`tones[chosen_tone]`). -/
def resolveList (cat tone : String) : List String :=
  (lookupA (tonesOf cat) (resolvedTone cat tone)).getD []

/-- `_choose_template`: resolve the category and tone, then `random.choice`. -/
def chooseTemplate (g : RandState) (cat tone : String) : String × RandState :=
  pyChoice (resolveList cat tone) g

/-! ## Context builder (`_build_context`) -/

def defaultAction : String := "complete the task"

def defaultDeliverable : String := "the deliverable"

def defaultEvent : String := "the event"

/-- The `timeframe` local of `_build_context`, by specificity band. -/
def timeframeOf (spec : Int) (now : PyDateTime) : String :=
  if 7 ≤ spec then fmtDayClock now
  else if 4 ≤ spec then dayName now.weekday
  else "today"

/-- The `new_time` local of `_build_context`, by specificity band. -/
def newTimeOf (spec : Int) (now : PyDateTime) : String :=
  if 7 ≤ spec then fmtDayClock (replaceMinute now (now.minute / 15 * 15))
  else if 4 ≤ spec then fmtDayHour (replaceHour now ((now.hour + 3) % 24))
  else "tomorrow"

/-- The context dict before the custom-context heuristic. -/
def baseContext (req : ExcuseRequest) (now : PyDateTime) : List (String × String) :=
  [ ("action", defaultAction),
    ("deliverable", defaultDeliverable),
    ("event", defaultEvent),
    ("timeframe", timeframeOf req.specificity now),
    ("new_time", newTimeOf req.specificity now) ]

/-- Dict assignment `d[k] = v`: update an existing key in place (keeping its
position in insertion order), or append a new key. -/
def assocSet : List (String × String) → String → String → List (String × String)
  | [], k, v => [(k, v)]
  | (k', v') :: rest, k, v =>
      if k' = k then (k, v) :: rest else (k', v') :: assocSet rest k v

/-- `_build_context`: the five default/time keys, then the custom-context
heuristic (`if request.custom_context:` is Python truthiness, so `None` and
`""` both skip it). -/
def buildContext (req : ExcuseRequest) (now : PyDateTime) : List (String × String) :=
  match req.custom_context with
  | none => baseContext req now
  | some t =>
      if t = "" then baseContext req now
      else if t.length < 120 ∧ t.data.contains ',' = false ∧ t.data.contains ' ' = true then
        assocSet (baseContext req now) "deliverable" t
      else baseContext req now ++ [("notes", t)]

/-! ## Renderer (`template.format(**context)`)

`str.format` is modelled for the shape the catalog uses: literal text,
`\x7b\x7b` / `\x7d\x7d` escapes, and plain `\x7bname\x7d` replacement
fields.  A field whose name is not a context key raises `KeyError`; a
lone or unclosed brace raises `ValueError`.  The template is parsed
into tokens first, then rendered left to right. -/

inductive Tok where
  | lit (c : Char)
  | field (name : String)

inductive PyFormatError where
  | keyError (name : String)
  | valueError

/-- Tokenizer for format strings: `acc` holds finished tokens reversed,
the middle argument holds the (reversed) characters of an open field. -/
def tokAux : List Char → Option (List Char) → List Tok → Option (List Tok)
  | [], none, acc => some acc.reverse
  | [], some _, _ => none
  | '{' :: '{' :: rest, none, acc => tokAux rest none (.lit '{' :: acc)
  | '}' :: '}' :: rest, none, acc => tokAux rest none (.lit '}' :: acc)
  | '{' :: rest, none, acc => tokAux rest (some []) acc
  | '}' :: _, none, _ => none
  | c :: rest, none, acc => tokAux rest none (.lit c :: acc)
  | '}' :: rest, some nm, acc => tokAux rest none (.field (String.mk nm.reverse) :: acc)
  | c :: rest, some nm, acc => tokAux rest (some (c :: nm)) acc

/-- Substitute a token stream left to right; the first missing field
raises `KeyError` with that field's name. -/
def renderToks (ctx : List (String × String)) : List Tok → Except PyFormatError (List Char)
  | [] => .ok []
  | .lit c :: rest => (renderToks ctx rest).map (fun cs => c :: cs)
  | .field n :: rest =>
      match lookupA ctx n with
      | some v => (renderToks ctx rest).map (fun cs => v.data ++ cs)
      | none => .error (.keyError n)

/-- `template.format(**context)` as a fallible function. -/
def pyFormat (t : String) (ctx : List (String × String)) : Except PyFormatError String :=
  match tokAux t.data none [] with
  | none => .error .valueError
  | some toks => (renderToks ctx toks).map String.mk

/-- The rendering step of `generate`: `try: template.format(**context)
except KeyError: text = template` — only `KeyError` is caught. -/
def renderGenerate (t : String) (ctx : List (String × String)) : Except PyFormatError String :=
  match pyFormat t ctx with
  | .ok s => .ok s
  | .error (.keyError _) => .ok t
  | .error .valueError => .error .valueError

/-- The rendering step of `rephrase`: a bare `template.format(**context)`
with no exception handler. -/
def renderRephrase (t : String) (ctx : List (String × String)) : Except PyFormatError String :=
  pyFormat t ctx

/-! ## Length adjuster (`_vary`) and the two public operations -/

/-- The whitespace set stripped by Python's `str.strip()` (ASCII part). -/
def isPySpace (c : Char) : Bool :=
  c = ' ' ∨ c = '\t' ∨ c = '\n' ∨ c = '\r' ∨ c = '\x0b' ∨ c = '\x0c'

/-- Python `str.strip()`. -/
def pyStrip (s : String) : String :=
  String.mk (((s.data.dropWhile isPySpace).reverse.dropWhile isPySpace).reverse)

/-- The first piece of `text.split(". ")`: the characters before the first
occurrence of `". "`, or all of them when there is none. -/
def firstPiece : List Char → List Char
  | [] => []
  | '.' :: ' ' :: _ => []
  | c :: rest => c :: firstPiece rest

/-- `text.split(". ")[0]` on strings. -/
def firstSplit (s : String) : String := String.mk (firstPiece s.data)

/-- The three closing sentences `_vary` can append for `length = "Long"`. -/
def addons : List String :=
  [ " Thank you for your patience.",
    " I appreciate your understanding and will keep you informed.",
    " Please let me know if a different time works better." ]

/-- `_vary`: Short truncates to the first sentence when over 140 characters,
Long appends a random closing sentence; every branch ends in `strip()`. -/
def vary (text : String) (req : ExcuseRequest) (g : RandState) : String × RandState :=
  if req.length = "Short" then
    (pyStrip (if 140 < text.length then firstSplit text ++ "." else text), g)
  else if req.length = "Long" then
    let p := pyChoice addons g
    (pyStrip (text ++ p.1), p.2)
  else (pyStrip text, g)

/-- The state of `self.random` entering `_choose_template` from `generate`:
reseeded with the request's seed when one is present. -/
def genState (req : ExcuseRequest) (g : RandState) : RandState :=
  match req.seed with
  | some s => seedState s
  | none => g

/-- The state of `self.random` entering `_choose_template` from `rephrase`:
reseeded with `seed + 1` when a seed is present. -/
def rephState (req : ExcuseRequest) (g : RandState) : RandState :=
  match req.seed with
  | some s => seedState (s + 1)
  | none => g

/-- `generate`: seed, choose template, build context, render with the
`KeyError` fallback, length-adjust.  `now` is the wall-clock reading,
`g` the incoming random state; an uncaught render error propagates. -/
def generate (req : ExcuseRequest) (now : PyDateTime) (g : RandState) : Except PyFormatError String :=
  let p := chooseTemplate (genState req g) req.category req.tone
  (renderGenerate p.1 (buildContext req now)).map (fun text => (vary text req p.2).1)

/-- `rephrase`: same pipeline, seeded with `seed + 1`, rendering without
the fallback; the prior text `base` is accepted but never consulted. -/
def rephrase (req : ExcuseRequest) (base : String) (now : PyDateTime) (g : RandState) : Except PyFormatError String :=
  let p := chooseTemplate (rephState req g) req.category req.tone
  (renderRephrase p.1 (buildContext req now)).map (fun text => (vary text req p.2).1)

/-! ## Persistence (`persist`)

`persist(text)` appends `json.dumps({"timestamp": now.isoformat(),
"text": text}, ensure_ascii=False) + "\n"` to
`.history/history_<YYYYMMDD>.jsonl`, creating the directory first.
`json.dumps` with `ensure_ascii=False` escapes only `"` and `\` and
control characters (with the five short escapes, else `\u00XX`); the
filesystem is modelled as the set of created directories plus a map
from path to character content. -/

/-- Hex digit as `json.dumps` prints it (lowercase). -/
def hexDigit (n : Nat) : Char :=
  if n < 10 then Char.ofNat (48 + n) else Char.ofNat (87 + n)

/-- The value of a hex digit character, if it is one. -/
def hexVal (c : Char) : Option Nat :=
  if 48 ≤ c.toNat ∧ c.toNat ≤ 57 then some (c.toNat - 48)
  else if 97 ≤ c.toNat ∧ c.toNat ≤ 102 then some (c.toNat - 87)
  else none

/-- JSON escaping of one character, `ensure_ascii=False`. -/
def escChar (c : Char) : List Char :=
  if c = '"' then ['\\', '"']
  else if c = '\\' then ['\\', '\\']
  else if c = '\n' then ['\\', 'n']
  else if c = '\t' then ['\\', 't']
  else if c = '\r' then ['\\', 'r']
  else if c = '\x08' then ['\\', 'b']
  else if c = '\x0c' then ['\\', 'f']
  else if c.toNat < 32 then
    ['\\', 'u', '0', '0', hexDigit (c.toNat / 16), hexDigit (c.toNat % 16)]
  else [c]

/-- JSON escaping of a string's characters. -/
def escStr (cs : List Char) : List Char := cs.flatMap escChar

/-- The character denoted by a two-character short escape, if any. -/
def shortEscape (e : Char) : Option Char :=
  if e = '"' then some '"'
  else if e = '\\' then some '\\'
  else if e = 'n' then some '\n'
  else if e = 't' then some '\t'
  else if e = 'r' then some '\r'
  else if e = 'b' then some '\x08'
  else if e = 'f' then some '\x0c'
  else none

/-- Decoder for a JSON string body: consumes characters up to the closing
quote, undoing the escapes, and returns the content and the remainder. -/
def unescape : List Char → Option (List Char × List Char)
  | [] => none
  | c :: rest =>
      if c = '"' then some ([], rest)
      else if c = '\\' then
        match rest with
        | [] => none
        | 'u' :: d1 :: d2 :: d3 :: d4 :: rest2 =>
            match hexVal d1, hexVal d2, hexVal d3, hexVal d4 with
            | some a, some b, some cc, some d =>
                (unescape rest2).map
                  (fun p => (Char.ofNat (((a * 16 + b) * 16 + cc) * 16 + d) :: p.1, p.2))
            | _, _, _, _ => none
        | e :: rest2 =>
            match shortEscape e with
            | some c2 => (unescape rest2).map (fun p => (c2 :: p.1, p.2))
            | none => none
      else (unescape rest).map (fun p => (c :: p.1, p.2))

/-- The text before the timestamp value in a dumped record. -/
def recHead : List Char := ("\x7b\"timestamp\": \"").data

/-- The text between the timestamp value and the text value. -/
def recMid : List Char := (", \"text\": \"").data

/-- One dumped record: `json.dumps({"timestamp": ts, "text": tx},
ensure_ascii=False)`. -/
def encodeRecord (ts tx : String) : List Char :=
  recHead ++ escStr ts.data ++ '"' :: recMid ++ escStr tx.data ++ '"' :: ['\x7d']

/-- Consume an expected literal prefix. -/
def dropLit : List Char → List Char → Option (List Char)
  | [], rest => some rest
  | c :: ls, d :: rest => if c = d then dropLit ls rest else none
  | _ :: _, [] => none

/-- Parse one line back into its `timestamp` and `text` fields. -/
def parseRecord (line : List Char) : Option (String × String) :=
  (dropLit recHead line).bind fun r1 =>
  (unescape r1).bind fun p1 =>
  (dropLit recMid p1.2).bind fun r2 =>
  (unescape r2).bind fun p2 =>
  if p2.2 = ['\x7d'] then some (String.mk p1.1, String.mk p2.1) else none

/-- `now.isoformat()`: `YYYY-MM-DDTHH:MM:SS[.ffffff]`. -/
def isoFormat (t : PyDateTime) : String :=
  pad 4 t.year ++ "-" ++ pad 2 t.month ++ "-" ++ pad 2 t.day ++ "T" ++
    pad 2 t.hour ++ ":" ++ pad 2 t.minute ++ ":" ++ pad 2 t.second ++
    (if t.microsecond = 0 then "" else "." ++ pad 6 t.microsecond)

/-- `now.strftime("%Y%m%d")`. -/
def dateKey (t : PyDateTime) : String := pad 4 t.year ++ pad 2 t.month ++ pad 2 t.day

/-- The day file's path for a given `%Y%m%d` key. -/
def historyPath (k : String) : String := ".history/history_" ++ k ++ ".jsonl"

/-- Directories created and file contents, as `persist` touches them. -/
structure FileSystem where
  dirs : List String
  files : List (String × List Char)

/-- The content of a file, `[]` when absent. -/
def fileContent (fs : FileSystem) (path : String) : List Char :=
  (lookupA fs.files path).getD []

/-- Append characters to a file, creating it when absent. -/
def appendFile : List (String × List Char) → String → List Char → List (String × List Char)
  | [], p, cs => [(p, cs)]
  | (p', cs') :: rest, p, cs =>
      if p' = p then (p', cs' ++ cs) :: rest else (p', cs') :: appendFile rest p cs

/-- `persist(text)`: make `.history`, then append one dumped record and a
newline to the day's file.  `nowFile` and `nowStamp` are the two
`datetime.now()` readings (file naming, then timestamp). -/
def persist (nowFile nowStamp : PyDateTime) (text : String) (fs : FileSystem) : FileSystem :=
  { dirs := if fs.dirs.contains ".history" then fs.dirs else fs.dirs ++ [".history"],
    files := appendFile fs.files (historyPath (dateKey nowFile))
      (encodeRecord (isoFormat nowStamp) text ++ ['\n']) }

/-- Split file content at newlines; a trailing newline yields a final
empty piece, so a well-formed log's pieces are its records plus `[]`. -/
def splitNl : List Char → List (List Char)
  | [] => [[]]
  | '\n' :: rest => [] :: splitNl rest
  | c :: rest =>
      match splitNl rest with
      | [] => [[c]]
      | l :: ls => (c :: l) :: ls

/-- The newline-delimited lines of a file's content. -/
def linesOf (cs : List Char) : List (List Char) := (splitNl cs).dropLast

/-! ## Catalog facts -/

/-- The value lists of the catalog's tone maps. -/
def allToneLists : List (List String) :=
  (templates.map Prod.snd).flatMap (fun tm => tm.map Prod.snd)

/-- The replacement fields a template may use. -/
def stdKeys : List String :=
  ["action", "deliverable", "event", "timeframe", "new_time"]

/-- A template is well formed and only uses the standard fields. -/
def fieldsOkB (t : String) : Bool :=
  match tokAux t.data none [] with
  | none => false
  | some toks =>
      toks.all (fun tk =>
        match tk with
        | .field n => stdKeys.contains n
        | .lit _ => true)

theorem lookupA_mem {α : Type} {l : List (String × α)} {k : String} {v : α}
    (h : lookupA l k = some v) : v ∈ l.map Prod.snd := by
  induction l with
  | nil => simp [lookupA] at h
  | cons a as ih =>
    rw [lookupA] at h
    by_cases hk : a.1 = k
    · rw [if_pos hk] at h
      exact Option.some_injective _ h ▸ List.mem_cons_self _ _
    · rw [if_neg hk] at h
      exact List.mem_cons_of_mem _ (ih h)

theorem lookupA_key_head {α : Type} (k : String) (v : α) (rest : List (String × α)) :
    lookupA ((k, v) :: rest) k = some v := by
  simp [lookupA]

theorem tonesOf_mem (cat : String) : tonesOf cat ∈ templates.map Prod.snd := by
  unfold tonesOf resolvedCat
  by_cases hs : (lookupA templates cat).isSome = true
  · rw [if_pos hs]
    obtain ⟨v, hv⟩ := Option.isSome_iff_exists.mp hs
    rw [hv]
    exact lookupA_mem hv
  · rw [if_neg hs]
    decide

theorem tonesOf_ne_nil (cat : String) : tonesOf cat ≠ [] := by
  have h := tonesOf_mem cat
  revert h
  have : ∀ tm ∈ templates.map Prod.snd, tm ≠ [] := by decide
  intro h
  exact this _ h

theorem resolveList_mem (cat tone : String) : resolveList cat tone ∈ allToneLists := by
  unfold resolveList resolvedTone allToneLists
  by_cases hs : (lookupA (tonesOf cat) tone).isSome = true
  · rw [if_pos hs]
    obtain ⟨l, hl⟩ := Option.isSome_iff_exists.mp hs
    rw [hl]
    exact List.mem_flatMap.mpr ⟨tonesOf cat, tonesOf_mem cat, lookupA_mem hl⟩
  · rw [if_neg hs]
    have hne := tonesOf_ne_nil cat
    cases htm : tonesOf cat with
    | nil => exact absurd htm hne
    | cons p rest =>
      have hfk : firstKey (p :: rest) = p.1 := by simp [firstKey]
      rw [hfk, lookupA_key_head p.1 p.2 rest]
      refine List.mem_flatMap.mpr ⟨p :: rest, htm ▸ tonesOf_mem cat, ?_⟩
      simp

theorem allToneLists_ok :
    allToneLists.all (fun l => !l.isEmpty && l.all fieldsOkB) = true := by decide

theorem resolveList_ne_nil (cat tone : String) : resolveList cat tone ≠ [] := by
  have h := resolveList_mem cat tone
  have h2 := allToneLists_ok
  rw [List.all_eq_true] at h2
  have := h2 _ h
  simp only [Bool.and_eq_true, Bool.not_eq_true'] at this
  exact fun he => by simp [he] at this

theorem resolveList_fieldsOk {cat tone : String} {t : String}
    (h : t ∈ resolveList cat tone) : fieldsOkB t = true := by
  have hm := resolveList_mem cat tone
  have h2 := allToneLists_ok
  rw [List.all_eq_true] at h2
  have := h2 _ hm
  simp only [Bool.and_eq_true] at this
  exact (List.all_eq_true.mp this.2) _ h

theorem chooseTemplate_mem (g : RandState) (cat tone : String) :
    (chooseTemplate g cat tone).1 ∈ resolveList cat tone := by
  unfold chooseTemplate pyChoice
  have hne := resolveList_ne_nil cat tone
  have hlen : 0 < (resolveList cat tone).length := List.length_pos.mpr hne
  have hlt : g.val % (resolveList cat tone).length < (resolveList cat tone).length :=
    Nat.mod_lt _ hlen
  simp only [List.getD_eq_getElem?_getD, List.getElem?_eq_getElem hlt, Option.getD_some]
  exact List.getElem_mem hlt

theorem chooseTemplate_fieldsOk (g : RandState) (cat tone : String) :
    fieldsOkB (chooseTemplate g cat tone).1 = true :=
  resolveList_fieldsOk (chooseTemplate_mem g cat tone)

/-! ## Context facts: the five standard keys are always present -/

theorem std_base (req : ExcuseRequest) (now : PyDateTime) :
    ∀ k ∈ stdKeys, (lookupA (baseContext req now) k).isSome = true := by
  intro k hk
  have h5 : k = "action" ∨ k = "deliverable" ∨ k = "event" ∨ k = "timeframe" ∨
      k = "new_time" := by simpa [stdKeys] using hk
  rcases h5 with h | h | h | h | h <;> subst h <;> rfl

theorem std_override (req : ExcuseRequest) (now : PyDateTime) (t : String) :
    ∀ k ∈ stdKeys,
      (lookupA (assocSet (baseContext req now) "deliverable" t) k).isSome = true := by
  intro k hk
  have h5 : k = "action" ∨ k = "deliverable" ∨ k = "event" ∨ k = "timeframe" ∨
      k = "new_time" := by simpa [stdKeys] using hk
  rcases h5 with h | h | h | h | h <;> subst h <;> rfl

theorem std_notes (req : ExcuseRequest) (now : PyDateTime) (t : String) :
    ∀ k ∈ stdKeys,
      (lookupA (baseContext req now ++ [("notes", t)]) k).isSome = true := by
  intro k hk
  have h5 : k = "action" ∨ k = "deliverable" ∨ k = "event" ∨ k = "timeframe" ∨
      k = "new_time" := by simpa [stdKeys] using hk
  rcases h5 with h | h | h | h | h <;> subst h <;> rfl

theorem buildContext_std (req : ExcuseRequest) (now : PyDateTime) :
    ∀ k ∈ stdKeys, (lookupA (buildContext req now) k).isSome = true := by
  intro k hk
  cases hcc : req.custom_context with
  | none =>
    simp only [buildContext, hcc]
    exact std_base req now k hk
  | some t =>
    simp only [buildContext, hcc]
    by_cases h0 : t = ""
    · rw [if_pos h0]
      exact std_base req now k hk
    · rw [if_neg h0]
      by_cases hcond : t.length < 120 ∧ t.data.contains ',' = false ∧ t.data.contains ' ' = true
      · rw [if_pos hcond]
        exact std_override req now t k hk
      · rw [if_neg hcond]
        exact std_notes req now t k hk

/-! ## Render totality on the catalog -/

theorem renderToks_ok (ctx : List (String × String)) (toks : List Tok)
    (h : ∀ n, Tok.field n ∈ toks → (lookupA ctx n).isSome = true) :
    ∃ cs, renderToks ctx toks = .ok cs := by
  induction toks with
  | nil => exact ⟨[], rfl⟩
  | cons tk rest ih =>
    obtain ⟨cs, hcs⟩ := ih (fun n hn => h n (List.mem_cons_of_mem _ hn))
    cases tk with
    | lit c => exact ⟨c :: cs, by rw [renderToks, hcs]; rfl⟩
    | field n =>
      have hs := h n (List.mem_cons_self _ _)
      obtain ⟨v, hv⟩ := Option.isSome_iff_exists.mp hs
      exact ⟨v.data ++ cs, by rw [renderToks, hv, hcs]; rfl⟩

theorem pyFormat_ok (t : String) (ctx : List (String × String))
    (hok : fieldsOkB t = true)
    (hctx : ∀ k ∈ stdKeys, (lookupA ctx k).isSome = true) :
    ∃ s, pyFormat t ctx = .ok s := by
  unfold fieldsOkB at hok
  unfold pyFormat
  cases htoks : tokAux t.data none [] with
  | none => rw [htoks] at hok; exact absurd hok (by simp)
  | some toks =>
    rw [htoks] at hok
    have hok2 : (toks.all fun tk =>
        match tk with
        | Tok.field n => stdKeys.contains n
        | Tok.lit _ => true) = true := hok
    show ∃ s, Except.map String.mk (renderToks ctx toks) = Except.ok s
    have hall := List.all_eq_true.mp hok2
    have hfields : ∀ n, Tok.field n ∈ toks → (lookupA ctx n).isSome = true := by
      intro n hn
      have := hall _ hn
      simp only at this
      exact hctx n (by simpa [List.contains] using this)
    obtain ⟨cs, hcs⟩ := renderToks_ok ctx toks hfields
    exact ⟨String.mk cs, by rw [hcs]; rfl⟩

/-- On every template the selector can choose, rendering succeeds, so the
`KeyError` fallback of `generate` is never taken and the unguarded render
of `rephrase` never raises. -/
theorem chosen_format_ok (g : RandState) (req : ExcuseRequest) (now : PyDateTime) :
    ∃ s, pyFormat (chooseTemplate g req.category req.tone).1 (buildContext req now) = .ok s :=
  pyFormat_ok _ _ (chooseTemplate_fieldsOk g req.category req.tone) (buildContext_std req now)

theorem generate_ok (req : ExcuseRequest) (now : PyDateTime) (g : RandState) :
    ∃ s, generate req now g = .ok s := by
  obtain ⟨s, hs⟩ := chosen_format_ok (genState req g) req now
  refine ⟨(vary s req (chooseTemplate (genState req g) req.category req.tone).2).1, ?_⟩
  unfold generate renderGenerate
  simp only [hs]
  rfl

theorem rephrase_ok (req : ExcuseRequest) (b : String) (now : PyDateTime) (g : RandState) :
    ∃ s, rephrase req b now g = .ok s := by
  obtain ⟨s, hs⟩ := chosen_format_ok (rephState req g) req now
  refine ⟨(vary s req (chooseTemplate (rephState req g) req.category req.tone).2).1, ?_⟩
  unfold rephrase renderRephrase
  simp only [hs]
  rfl

/-! ## Length facts for the length adjuster -/

theorem length_mk (l : List Char) : (String.mk l).length = l.length := rfl

theorem pyStrip_length_le (s : String) : (pyStrip s).length ≤ s.length := by
  unfold pyStrip
  rw [length_mk]
  calc ((s.data.dropWhile isPySpace).reverse.dropWhile isPySpace).reverse.length
      = ((s.data.dropWhile isPySpace).reverse.dropWhile isPySpace).length := List.length_reverse _
    _ ≤ (s.data.dropWhile isPySpace).reverse.length :=
        (List.dropWhile_sublist _).length_le
    _ = (s.data.dropWhile isPySpace).length := List.length_reverse _
    _ ≤ s.data.length := (List.dropWhile_sublist _).length_le

/-! ## Persistence facts -/

theorem lookupA_appendFile (files : List (String × List Char)) (p : String) (cs : List Char) :
    lookupA (appendFile files p cs) p = some ((lookupA files p).getD [] ++ cs) := by
  induction files with
  | nil => simp [appendFile, lookupA]
  | cons q rest ih =>
    by_cases hq : q.1 = p
    · rw [appendFile, if_pos hq, lookupA, if_pos hq, lookupA, if_pos hq]
      rfl
    · rw [appendFile, if_neg hq, lookupA, if_neg hq, lookupA, if_neg hq]
      exact ih

theorem persist_content (n1 n2 : PyDateTime) (t : String) (fs : FileSystem) :
    fileContent (persist n1 n2 t fs) (historyPath (dateKey n1)) =
      fileContent fs (historyPath (dateKey n1)) ++
        (encodeRecord (isoFormat n2) t ++ ['\n']) := by
  unfold persist fileContent
  rw [lookupA_appendFile]
  rfl

theorem persist_dirs (n1 n2 : PyDateTime) (t : String) (fs : FileSystem) :
    (persist n1 n2 t fs).dirs.contains ".history" = true := by
  unfold persist
  by_cases hm : ".history" ∈ fs.dirs
  · simp [hm]
  · simp [hm]

/-- Folding `persist` over a list of calls (each call: the two clock
readings and the text). -/
def runPersists (calls : List ((PyDateTime × PyDateTime) × String)) (fs : FileSystem) :
    FileSystem :=
  calls.foldl (fun a c => persist c.1.1 c.1.2 c.2 a) fs

theorem runPersists_dirs (calls : List ((PyDateTime × PyDateTime) × String))
    (fs : FileSystem) (h : calls ≠ []) :
    (runPersists calls fs).dirs.contains ".history" = true := by
  induction calls generalizing fs with
  | nil => exact absurd rfl h
  | cons c rest ih =>
    cases rest with
    | nil => exact persist_dirs c.1.1 c.1.2 c.2 fs
    | cons d rest2 =>
      exact ih (persist c.1.1 c.1.2 c.2 fs) (by simp)

theorem runPersists_content (calls : List ((PyDateTime × PyDateTime) × String))
    (fs : FileSystem) (k : String) (hk : ∀ c ∈ calls, dateKey c.1.1 = k) :
    fileContent (runPersists calls fs) (historyPath k) =
      fileContent fs (historyPath k) ++
        calls.flatMap (fun c => encodeRecord (isoFormat c.1.2) c.2 ++ ['\n']) := by
  induction calls generalizing fs with
  | nil => simp [runPersists]
  | cons c rest ih =>
    have hc : dateKey c.1.1 = k := hk c (List.mem_cons_self _ _)
    have hrest : ∀ d ∈ rest, dateKey d.1.1 = k := fun d hd => hk d (List.mem_cons_of_mem _ hd)
    have hstep : runPersists (c :: rest) fs = runPersists rest (persist c.1.1 c.1.2 c.2 fs) := rfl
    rw [hstep, ih (persist c.1.1 c.1.2 c.2 fs) hrest, ← hc,
      persist_content c.1.1 c.1.2 c.2 fs]
    simp

/-! ## Newline splitting -/

theorem splitNl_append (r rest : List Char) (h : '\n' ∉ r) :
    splitNl (r ++ '\n' :: rest) = r :: splitNl rest := by
  induction r with
  | nil => rfl
  | cons c r' ih =>
    have hc : c ≠ '\n' := fun he => h (he ▸ List.mem_cons_self _ _)
    have h' : '\n' ∉ r' := fun hm => h (List.mem_cons_of_mem _ hm)
    rw [List.cons_append]
    have hstep : splitNl (c :: (r' ++ '\n' :: rest)) =
        match splitNl (r' ++ '\n' :: rest) with
        | [] => [[c]]
        | l :: ls => (c :: l) :: ls := by simp [splitNl, hc]
    rw [hstep, ih h']

theorem linesOf_records (recs : List (List Char)) (h : ∀ r ∈ recs, '\n' ∉ r) :
    linesOf (recs.flatMap (fun r => r ++ ['\n'])) = recs := by
  have key : splitNl (recs.flatMap (fun r => r ++ ['\n'])) = recs ++ [[]] := by
    induction recs with
    | nil => rfl
    | cons r rest ih =>
      have hr : '\n' ∉ r := h r (List.mem_cons_self _ _)
      have hrest : ∀ q ∈ rest, '\n' ∉ q := fun q hq => h q (List.mem_cons_of_mem _ hq)
      rw [List.flatMap_cons, List.append_assoc,
        show ['\n'] ++ rest.flatMap (fun q => q ++ ['\n']) =
          '\n' :: rest.flatMap (fun q => q ++ ['\n']) from rfl,
        splitNl_append r _ hr, ih hrest]
      rfl
  unfold linesOf
  rw [key]
  simp

/-! ## JSON record round trip -/

theorem hexVal_hexDigit (n : Nat) (h : n < 16) : hexVal (hexDigit n) = some n := by
  interval_cases n <;> rfl

theorem escChar_no_newline (c : Char) : '\n' ∉ escChar c := by
  unfold escChar
  split_ifs with h1 h2 h3 h4 h5 h6 h7 h8
  · decide
  · decide
  · decide
  · decide
  · decide
  · decide
  · decide
  · intro hm
    have hnl : ∀ m, m < 16 → hexDigit m ≠ '\n' := by decide
    have hb1 : c.toNat / 16 < 16 := by omega
    have hb2 : c.toNat % 16 < 16 := by omega
    simp only [List.mem_cons, List.not_mem_nil, or_false] at hm
    rcases hm with h | h | h | h | h | h
    · exact absurd h (by decide)
    · exact absurd h (by decide)
    · exact absurd h (by decide)
    · exact absurd h (by decide)
    · exact hnl _ hb1 h.symm
    · exact hnl _ hb2 h.symm
  · intro hm
    rw [List.mem_singleton] at hm
    exact h3 hm.symm

theorem escStr_no_newline (cs : List Char) : '\n' ∉ escStr cs := by
  intro hm
  obtain ⟨c, _, hc⟩ := List.mem_flatMap.mp hm
  exact escChar_no_newline c hc

theorem encodeRecord_flat (ts tx : String) :
    encodeRecord ts tx =
      recHead ++ (escStr ts.data ++ '"' ::
        (recMid ++ (escStr tx.data ++ '"' :: ['\x7d']))) := by
  simp only [encodeRecord, List.cons_append, List.append_assoc]

theorem encodeRecord_no_newline (ts tx : String) : '\n' ∉ encodeRecord ts tx := by
  intro hm
  rw [encodeRecord_flat] at hm
  rcases List.mem_append.mp hm with h | h
  · exact absurd h (by decide)
  rcases List.mem_append.mp h with h | h
  · exact escStr_no_newline _ h
  rcases List.mem_cons.mp h with h | h
  · exact absurd h (by decide)
  rcases List.mem_append.mp h with h | h
  · exact absurd h (by decide)
  rcases List.mem_append.mp h with h | h
  · exact escStr_no_newline _ h
  rcases List.mem_cons.mp h with h | h
  · exact absurd h (by decide)
  · simp at h

theorem dropLit_append (ls rest : List Char) : dropLit ls (ls ++ rest) = some rest := by
  induction ls with
  | nil => rfl
  | cons c cs ih => simpa [dropLit] using ih

theorem unescape_esc (cs : List Char) (rest : List Char) :
    unescape (escStr cs ++ '"' :: rest) = some (cs, rest) := by
  induction cs with
  | nil =>
    simp only [escStr, List.flatMap_nil, List.nil_append]
    rw [unescape.eq_def]
    simp
  | cons c cs' ih =>
    have hexp : escStr (c :: cs') = escChar c ++ escStr cs' := by
      simp [escStr]
    rw [hexp, List.append_assoc]
    unfold escChar
    split_ifs with h1 h2 h3 h4 h5 h6 h7 h8
    · subst h1
      simpa [unescape, shortEscape] using ih
    · subst h2
      simpa [unescape, shortEscape] using ih
    · subst h3
      simpa [unescape, shortEscape] using ih
    · subst h4
      simpa [unescape, shortEscape] using ih
    · subst h5
      simpa [unescape, shortEscape] using ih
    · subst h6
      simpa [unescape, shortEscape] using ih
    · subst h7
      simpa [unescape, shortEscape] using ih
    · have hb1 : c.toNat / 16 < 16 := by omega
      have hb2 : c.toNat % 16 < 16 := by omega
      have e1 : hexVal (hexDigit (c.toNat / 16)) = some (c.toNat / 16) := hexVal_hexDigit _ hb1
      have e2 : hexVal (hexDigit (c.toNat % 16)) = some (c.toNat % 16) := hexVal_hexDigit _ hb2
      have hv : ((0 * 16 + 0) * 16 + c.toNat / 16) * 16 + c.toNat % 16 = c.toNat := by omega
      simp only [List.cons_append, List.nil_append]
      rw [show unescape ('\\' :: 'u' :: '0' :: '0' :: hexDigit (c.toNat / 16) ::
            hexDigit (c.toNat % 16) :: (escStr cs' ++ '"' :: rest)) =
          match hexVal '0', hexVal '0', hexVal (hexDigit (c.toNat / 16)),
              hexVal (hexDigit (c.toNat % 16)) with
          | some a, some b, some cc, some d =>
              (unescape (escStr cs' ++ '"' :: rest)).map
                (fun p => (Char.ofNat (((a * 16 + b) * 16 + cc) * 16 + d) :: p.1, p.2))
          | _, _, _, _ => none
        from by rw [unescape.eq_def]; rfl]
      rw [e1, e2]
      have h0 : hexVal '0' = some 0 := rfl
      rw [h0, ih]
      show Option.map
          (fun p => (Char.ofNat (((0 * 16 + 0) * 16 + c.toNat / 16) * 16 + c.toNat % 16) :: p.1,
            p.2)) (some (cs', rest)) = some (c :: cs', rest)
      rw [hv, Char.ofNat_toNat]
      rfl
    · have hq : c ≠ '"' := h1
      have hb : c ≠ '\\' := h2
      simp only [List.cons_append, List.nil_append]
      rw [show unescape (c :: (escStr cs' ++ '"' :: rest)) =
          (unescape (escStr cs' ++ '"' :: rest)).map (fun p => (c :: p.1, p.2))
        from by rw [unescape.eq_def]; simp [hq, hb]]
      rw [ih]
      rfl

theorem parseRecord_encodeRecord (ts tx : String) :
    parseRecord (encodeRecord ts tx) = some (ts, tx) := by
  unfold parseRecord
  rw [encodeRecord_flat, dropLit_append]
  rw [Option.some_bind]
  rw [unescape_esc]
  rw [Option.some_bind]
  rw [dropLit_append]
  rw [Option.some_bind]
  rw [unescape_esc]
  rw [Option.some_bind]
  rw [if_pos rfl]

/-! ## Sample inputs used by the witness theorems -/

def sampleNow : PyDateTime :=
  { year := 2026, month := 10, day := 12, weekday := 0, hour := 22, minute := 37,
    second := 5, microsecond := 0 }

def sampleReq : ExcuseRequest :=
  { category := "Work Deadline", audience := "Manager", tone := "Brief",
    specificity := 5, length := "Medium", custom_context := some "client demo",
    seed := some 42 }

/-! ## The claims -/

/-- C9: for every category and tone strings, the fallback-resolved template
list from the built-in catalog is non-empty and the selected template is
drawn from it, so the uniform choice inside template selection can never
fail on an empty list; moreover every catalog category defines at least one
tone with at least one template. -/
theorem C9_resolved_list_never_empty :
    (∀ cat tone : String, resolveList cat tone ≠ [] ∧
      ∀ g : RandState, (chooseTemplate g cat tone).1 ∈ resolveList cat tone) ∧
    templates.all (fun c => !c.2.isEmpty && c.2.all (fun tn => !tn.2.isEmpty)) = true :=
  ⟨fun cat tone => ⟨resolveList_ne_nil cat tone, fun g => chooseTemplate_mem g cat tone⟩,
    by decide⟩

/-- C3: whenever the request carries a seed, `generate` is a deterministic
function of the request and the wall-clock time: two calls with identical
requests and time but arbitrary incoming random-source states choose the
same template and return identical output strings. -/
theorem C3_generate_deterministic_under_seed (req : ExcuseRequest) (now : PyDateTime)
    (s : Int) (g g' : RandState) (h : req.seed = some s) :
    (chooseTemplate (genState req g) req.category req.tone).1 =
      (chooseTemplate (genState req g') req.category req.tone).1 ∧
    generate req now g = generate req now g' := by
  have hg : genState req g = genState req g' := by
    unfold genState
    rw [h]
  exact ⟨by rw [hg], by unfold generate; rw [hg]⟩

/-- C3 witness: the determinism theorem applied at a concrete seeded request
and two different incoming random states. -/
theorem C3_witness :
    (chooseTemplate (genState sampleReq ⟨3⟩) sampleReq.category sampleReq.tone).1 =
      (chooseTemplate (genState sampleReq ⟨99⟩) sampleReq.category sampleReq.tone).1 ∧
    generate sampleReq sampleNow ⟨3⟩ = generate sampleReq sampleNow ⟨99⟩ :=
  C3_generate_deterministic_under_seed sampleReq sampleNow 42 ⟨3⟩ ⟨99⟩ rfl

/-- C6: template selection draws, by a random index, from the catalog list
at the resolved category (the category itself when present, else
"General") and resolved tone (the tone itself when defined there, else the
first tone in insertion order); an unknown category behaves identically to
"General", an unknown tone identically to the resolved category's first
tone, and every index of the resolved list is reachable. -/
theorem C6_selection_fallback_uniform (cat tone : String) :
    (∀ g : RandState, chooseTemplate g cat tone =
      ((resolveList cat tone).getD (g.val % (resolveList cat tone).length) "",
        nextState g)) ∧
    (lookupA templates cat = none →
      ∀ g : RandState, chooseTemplate g cat tone = chooseTemplate g "General" tone) ∧
    (lookupA (tonesOf cat) tone = none →
      ∀ g : RandState,
        chooseTemplate g cat tone = chooseTemplate g cat (firstKey (tonesOf cat))) ∧
    (∀ i : Nat, i < (resolveList cat tone).length →
      ∃ g : RandState, (chooseTemplate g cat tone).1 = (resolveList cat tone).getD i "") := by
  refine ⟨fun g => rfl, ?_, ?_, ?_⟩
  · intro h g
    have hrc : resolvedCat cat = resolvedCat "General" := by
      unfold resolvedCat
      rw [h]
      rw [if_neg (by simp)]
      rw [if_pos (by decide)]
    unfold chooseTemplate resolveList resolvedTone tonesOf
    rw [hrc]
  · intro h g
    have hne := tonesOf_ne_nil cat
    have hrt : resolvedTone cat tone = firstKey (tonesOf cat) := by
      unfold resolvedTone
      rw [h]
      rw [if_neg (by simp)]
    have hrt2 : resolvedTone cat (firstKey (tonesOf cat)) = firstKey (tonesOf cat) := by
      unfold resolvedTone
      cases htm : tonesOf cat with
      | nil => exact absurd htm hne
      | cons p rest =>
        have hfk : firstKey (p :: rest) = p.1 := rfl
        rw [hfk, lookupA_key_head p.1 p.2 rest]
        rfl
    unfold chooseTemplate resolveList
    rw [hrt, hrt2]
  · intro i hi
    refine ⟨⟨i⟩, ?_⟩
    unfold chooseTemplate pyChoice
    rw [show (⟨i⟩ : RandState).val % (resolveList cat tone).length = i from
      Nat.mod_eq_of_lt hi]

/-- C6 witness: an unknown category behaves as "General" and an unknown
tone as the first defined tone, at concrete inputs. -/
theorem C6_witness :
    chooseTemplate ⟨7⟩ "Job Interview" "Casual" = chooseTemplate ⟨7⟩ "General" "Casual" ∧
    chooseTemplate ⟨7⟩ "Appointment" "Casual" =
      chooseTemplate ⟨7⟩ "Appointment" (firstKey (tonesOf "Appointment")) :=
  ⟨(C6_selection_fallback_uniform "Job Interview" "Casual").2.1 rfl ⟨7⟩,
    (C6_selection_fallback_uniform "Appointment" "Casual").2.2.1 rfl ⟨7⟩⟩

/-! ## Context lookups for the time-derived keys -/

theorem bc_timeframe (req : ExcuseRequest) (now : PyDateTime) :
    lookupA (buildContext req now) "timeframe" = some (timeframeOf req.specificity now) := by
  cases hcc : req.custom_context with
  | none =>
    simp only [buildContext, hcc]
    rfl
  | some t =>
    simp only [buildContext, hcc]
    by_cases h0 : t = ""
    · rw [if_pos h0]
      rfl
    · rw [if_neg h0]
      by_cases hcond : t.length < 120 ∧ t.data.contains ',' = false ∧ t.data.contains ' ' = true
      · rw [if_pos hcond]
        rfl
      · rw [if_neg hcond]
        rfl

theorem bc_new_time (req : ExcuseRequest) (now : PyDateTime) :
    lookupA (buildContext req now) "new_time" = some (newTimeOf req.specificity now) := by
  cases hcc : req.custom_context with
  | none =>
    simp only [buildContext, hcc]
    rfl
  | some t =>
    simp only [buildContext, hcc]
    by_cases h0 : t = ""
    · rw [if_pos h0]
      rfl
    · rw [if_neg h0]
      by_cases hcond : t.length < 120 ∧ t.data.contains ',' = false ∧ t.data.contains ' ' = true
      · rw [if_pos hcond]
        rfl
      · rw [if_neg hcond]
        rfl

/-- C7: the context builder's `timeframe` and `new_time` follow the
specificity bands: at specificity ≥ 7 the weekday with the exact 12-hour
clock time, and the weekday with the minutes rounded down to the nearest
15-minute mark; at 4 ≤ specificity < 7 the bare weekday, and the weekday
with the hour advanced by 3 modulo 24 and no minutes; below 4 the literals
"today" and "tomorrow". -/
theorem C7_specificity_bands (req : ExcuseRequest) (now : PyDateTime) :
    (7 ≤ req.specificity →
      lookupA (buildContext req now) "timeframe" =
        some (dayName now.weekday ++ " " ++ pad 2 (hour12 now.hour) ++ ":" ++
          pad 2 now.minute ++ " " ++ ampm now.hour) ∧
      lookupA (buildContext req now) "new_time" =
        some (dayName now.weekday ++ " " ++ pad 2 (hour12 now.hour) ++ ":" ++
          pad 2 (now.minute / 15 * 15) ++ " " ++ ampm now.hour)) ∧
    (4 ≤ req.specificity → req.specificity < 7 →
      lookupA (buildContext req now) "timeframe" = some (dayName now.weekday) ∧
      lookupA (buildContext req now) "new_time" =
        some (dayName now.weekday ++ " " ++ pad 2 (hour12 ((now.hour + 3) % 24)) ++ " " ++
          ampm ((now.hour + 3) % 24))) ∧
    (req.specificity < 4 →
      lookupA (buildContext req now) "timeframe" = some "today" ∧
      lookupA (buildContext req now) "new_time" = some "tomorrow") := by
  refine ⟨fun h7 => ⟨?_, ?_⟩, fun h4 h7 => ⟨?_, ?_⟩, fun hlo => ⟨?_, ?_⟩⟩
  · rw [bc_timeframe]
    unfold timeframeOf
    rw [if_pos h7]
    rfl
  · rw [bc_new_time]
    unfold newTimeOf
    rw [if_pos h7]
    rfl
  · rw [bc_timeframe]
    unfold timeframeOf
    rw [if_neg (by omega), if_pos h4]
  · rw [bc_new_time]
    unfold newTimeOf
    rw [if_neg (by omega), if_pos h4]
    rfl
  · rw [bc_timeframe]
    unfold timeframeOf
    rw [if_neg (by omega), if_neg (by omega)]
  · rw [bc_new_time]
    unfold newTimeOf
    rw [if_neg (by omega), if_neg (by omega)]

/-- C7 witness: the three bands evaluated at a concrete clock reading
(Monday 22:37) for specificities 8, 5 and 1. -/
theorem C7_witness :
    lookupA (buildContext { sampleReq with specificity := 8 } sampleNow) "timeframe" =
      some "Monday 10:37 PM" ∧
    lookupA (buildContext { sampleReq with specificity := 8 } sampleNow) "new_time" =
      some "Monday 10:30 PM" ∧
    lookupA (buildContext { sampleReq with specificity := 5 } sampleNow) "timeframe" =
      some "Monday" ∧
    lookupA (buildContext { sampleReq with specificity := 5 } sampleNow) "new_time" =
      some "Monday 01 AM" ∧
    lookupA (buildContext { sampleReq with specificity := 1 } sampleNow) "timeframe" =
      some "today" :=
  ⟨((C7_specificity_bands { sampleReq with specificity := 8 } sampleNow).1
      (by decide)).1.trans (by decide),
    ((C7_specificity_bands { sampleReq with specificity := 8 } sampleNow).1
      (by decide)).2.trans (by decide),
    ((C7_specificity_bands { sampleReq with specificity := 5 } sampleNow).2.1
      (by decide) (by decide)).1.trans (by decide),
    ((C7_specificity_bands { sampleReq with specificity := 5 } sampleNow).2.1
      (by decide) (by decide)).2.trans (by decide),
    ((C7_specificity_bands { sampleReq with specificity := 1 } sampleNow).2.2
      (by decide)).1⟩

/-- C10: in the middle specificity band the `new_time` value always names
the current day's weekday — `replace(hour=(hour+3) % 24)` changes only the
hour, never the date — so a 22:00 call still reports the same weekday with
the wrapped hour rather than the next day. -/
theorem C10_shift_keeps_weekday (req : ExcuseRequest) (now : PyDateTime)
    (h4 : 4 ≤ req.specificity) (h7 : req.specificity < 7) :
    (replaceHour now ((now.hour + 3) % 24)).weekday = now.weekday ∧
    lookupA (buildContext req now) "new_time" =
      some (dayName now.weekday ++ " " ++ pad 2 (hour12 ((now.hour + 3) % 24)) ++ " " ++
        ampm ((now.hour + 3) % 24)) := by
  refine ⟨rfl, ?_⟩
  rw [bc_new_time]
  unfold newTimeOf
  rw [if_neg (by omega), if_pos h4]
  rfl

/-- C10 witness: at Monday 22:37 with specificity 5 the shifted time wraps
past midnight but is still reported as Monday: "Monday 01 AM". -/
theorem C10_witness :
    lookupA (buildContext { sampleReq with specificity := 5 } sampleNow) "new_time" =
      some "Monday 01 AM" :=
  ((C10_shift_keeps_weekday { sampleReq with specificity := 5 } sampleNow
    (by decide) (by decide)).2).trans (by decide)

/-- C8: routing of the free-text context.  A non-empty `custom_context`
shorter than 120 characters with no comma and at least one space replaces
the `deliverable` value (the keys stay exactly the five default/time
ones); otherwise it is stored under an extra `notes` key and
`deliverable` keeps its default; an absent or empty `custom_context`
leaves exactly the five default/time keys with the default
`deliverable` and no `notes`. -/
theorem C8_custom_context_routing (req : ExcuseRequest) (now : PyDateTime) (t : String) :
    (req.custom_context = some t → t ≠ "" →
      ((t.length < 120 ∧ t.data.contains ',' = false ∧ t.data.contains ' ' = true) →
        lookupA (buildContext req now) "deliverable" = some t ∧
        (buildContext req now).map Prod.fst = stdKeys) ∧
      (¬(t.length < 120 ∧ t.data.contains ',' = false ∧ t.data.contains ' ' = true) →
        lookupA (buildContext req now) "deliverable" = some defaultDeliverable ∧
        lookupA (buildContext req now) "notes" = some t ∧
        (buildContext req now).map Prod.fst = stdKeys ++ ["notes"])) ∧
    ((req.custom_context = none ∨ req.custom_context = some "") →
      lookupA (buildContext req now) "deliverable" = some defaultDeliverable ∧
      lookupA (buildContext req now) "notes" = none ∧
      (buildContext req now).map Prod.fst = stdKeys) := by
  constructor
  · intro hcc hne
    constructor
    · intro hcond
      simp only [buildContext, hcc]
      rw [if_neg hne, if_pos hcond]
      exact ⟨rfl, rfl⟩
    · intro hcond
      simp only [buildContext, hcc]
      rw [if_neg hne, if_neg hcond]
      exact ⟨rfl, rfl, rfl⟩
  · intro hcc
    rcases hcc with hcc | hcc
    · simp only [buildContext, hcc]
      exact ⟨rfl, rfl, rfl⟩
    · simp only [buildContext, hcc]
      rw [if_pos trivial]
      exact ⟨rfl, rfl, rfl⟩

/-- C8 witness: "client demo" (length 11, a space, no comma) overrides
`deliverable`; a 200-character comma-free spaced text goes to `notes`. -/
theorem C8_witness :
    lookupA (buildContext sampleReq sampleNow) "deliverable" = some "client demo" ∧
    lookupA
      (buildContext
        { sampleReq with custom_context := some (String.mk (List.replicate 199 'x' ++ [' '])) }
        sampleNow) "notes" =
      some (String.mk (List.replicate 199 'x' ++ [' '])) :=
  ⟨((C8_custom_context_routing sampleReq sampleNow "client demo").1 rfl (by decide)).1
      (by decide) |>.1,
    (((C8_custom_context_routing
        { sampleReq with custom_context := some (String.mk (List.replicate 199 'x' ++ [' '])) }
        sampleNow (String.mk (List.replicate 199 'x' ++ [' ']))).1 rfl (by decide)).2
      (by decide)).2.1⟩

/-- A template references at least one placeholder that is absent from the
context. -/
def hasMissingField (t : String) (ctx : List (String × String)) : Bool :=
  match tokAux t.data none [] with
  | none => false
  | some toks =>
      toks.any (fun tk =>
        match tk with
        | .field n => (lookupA ctx n).isNone
        | .lit _ => false)

theorem hasMissing_false (t : String) (ctx : List (String × String))
    (hok : fieldsOkB t = true)
    (hctx : ∀ k ∈ stdKeys, (lookupA ctx k).isSome = true) :
    hasMissingField t ctx = false := by
  unfold fieldsOkB at hok
  unfold hasMissingField
  cases htoks : tokAux t.data none [] with
  | none => rfl
  | some toks =>
    rw [htoks] at hok
    have hok2 : (toks.all fun tk =>
        match tk with
        | Tok.field n => stdKeys.contains n
        | Tok.lit _ => true) = true := hok
    show (toks.any fun tk =>
        match tk with
        | Tok.field n => (lookupA ctx n).isNone
        | Tok.lit _ => false) = false
    rw [List.any_eq_false]
    intro tk htk
    have := List.all_eq_true.mp hok2 tk htk
    cases tk with
    | lit c => simp
    | field n =>
      simp only at this ⊢
      have hs := hctx n (by simpa [List.contains] using this)
      simp [Option.isNone, Option.isSome] at hs ⊢
      cases hlk : lookupA ctx n with
      | none => rw [hlk] at hs; simp at hs
      | some v => simp

/-- C1: for every request and every template the selector can choose, if the
chosen template referenced a placeholder absent from the built context, both
`generate` and `rephrase` would return that template's raw text
(length-adjusted) — and in fact no reachable template/context pair has a
missing placeholder, so rendering never crashes either operation: both
always return a value. -/
theorem C1_render_never_crashes (req : ExcuseRequest) (prior : String)
    (now : PyDateTime) (g : RandState) :
    (∀ t ∈ resolveList req.category req.tone,
      hasMissingField t (buildContext req now) = false) ∧
    (hasMissingField (chooseTemplate (genState req g) req.category req.tone).1
        (buildContext req now) = true →
      generate req now g =
        .ok ((vary (chooseTemplate (genState req g) req.category req.tone).1 req
          (chooseTemplate (genState req g) req.category req.tone).2).1)) ∧
    (hasMissingField (chooseTemplate (rephState req g) req.category req.tone).1
        (buildContext req now) = true →
      rephrase req prior now g =
        .ok ((vary (chooseTemplate (rephState req g) req.category req.tone).1 req
          (chooseTemplate (rephState req g) req.category req.tone).2).1)) ∧
    (generate req now g).isOk = true ∧ (rephrase req prior now g).isOk = true := by
  have hnone : ∀ t ∈ resolveList req.category req.tone,
      hasMissingField t (buildContext req now) = false := fun t ht =>
    hasMissing_false t _ (resolveList_fieldsOk ht) (buildContext_std req now)
  refine ⟨hnone, ?_, ?_, ?_, ?_⟩
  · intro hmiss
    exact absurd hmiss (by
      rw [hnone _ (chooseTemplate_mem (genState req g) req.category req.tone)]
      simp)
  · intro hmiss
    exact absurd hmiss (by
      rw [hnone _ (chooseTemplate_mem (rephState req g) req.category req.tone)]
      simp)
  · obtain ⟨s, hs⟩ := generate_ok req now g
    rw [hs]
    rfl
  · obtain ⟨s, hs⟩ := rephrase_ok req prior now g
    rw [hs]
    rfl

/-- C4: with a seed S in the request, `rephrase` seeds the random source
with S + 1 and behaves exactly as `generate` would on the same request
carrying seed S + 1 (in particular it selects the same template); the
prior text has no influence, and the result is reproducible (independent
of the incoming random state) while not being selected via seed S itself. -/
theorem C4_rephrase_uses_seed_succ (req : ExcuseRequest) (p1 p2 : String)
    (now : PyDateTime) (s : Int) (g g' : RandState) (h : req.seed = some s) :
    rephState req g = seedState (s + 1) ∧
    rephrase req p1 now g = generate { req with seed := some (s + 1) } now g' ∧
    rephrase req p1 now g = rephrase req p2 now g' := by
  have h1 : rephState req g = seedState (s + 1) := by
    unfold rephState
    rw [h]
  have h1' : rephState req g' = seedState (s + 1) := by
    unfold rephState
    rw [h]
  have h2 : genState { req with seed := some (s + 1) } g' = seedState (s + 1) := rfl
  have hct : chooseTemplate (rephState req g) req.category req.tone =
      chooseTemplate (genState { req with seed := some (s + 1) } g') req.category req.tone := by
    rw [h1, h2]
  obtain ⟨s0, hs0⟩ := chosen_format_ok (rephState req g) req now
  refine ⟨h1, ?_, ?_⟩
  · simp only [rephrase, generate, renderRephrase, renderGenerate]
    rw [← hct] at *
    simp only [hs0]
    have hb : buildContext { req with seed := some (s + 1) } now = buildContext req now := rfl
    rw [hb, hs0]
    rfl
  · simp only [rephrase]
    rw [h1, h1']

/-- C4 witness: the seed-succession theorem at a concrete seeded request,
two prior texts and two random states. -/
theorem C4_witness :
    rephState sampleReq ⟨3⟩ = seedState 43 ∧
    rephrase sampleReq "old text" sampleNow ⟨3⟩ =
      generate { sampleReq with seed := some 43 } sampleNow ⟨99⟩ ∧
    rephrase sampleReq "old text" sampleNow ⟨3⟩ =
      rephrase sampleReq "different prior" sampleNow ⟨99⟩ :=
  C4_rephrase_uses_seed_succ sampleReq "old text" "different prior" sampleNow 42 ⟨3⟩ ⟨99⟩ rfl

/-! ## Claim C5: the Short/Medium length relation -/

/-- Modelled from the spec's words: "the first-sentence truncation (text up
to the first `". "` plus a period)" of a rendered text, compared below
against what the length adjuster actually produces. -/
def specFirstTruncation (s : String) : String := firstSplit s ++ "."

def cxReqShort : ExcuseRequest :=
  { category := "Work Deadline", audience := "Manager", tone := "Brief",
    specificity := 0, length := "Short" }

def cxReqMedium : ExcuseRequest := { cxReqShort with length := "Medium" }

/-- A reachable rendered text (the "Work Deadline"/"Brief" template rendered
at low specificity): two sentences, 60 characters, under the 140 threshold. -/
def cxText : String := "Delay on the deliverable due to a blocker. New ETA tomorrow."

/-- C5 counterexample: for this reachable rendered text the Short output is
the whole text (no truncation happens at ≤ 140 characters), which is longer
than the first-sentence truncation of the Medium output, refuting the
claimed inequality. -/
theorem C5_counterexample :
    generate cxReqShort sampleNow ⟨0⟩ = .ok cxText ∧
    generate cxReqMedium sampleNow ⟨0⟩ = .ok cxText ∧
    ¬(((vary cxText cxReqShort ⟨0⟩).1).length ≤
      (specFirstTruncation ((vary cxText cxReqMedium ⟨0⟩).1)).length) :=
  ⟨rfl, rfl, by decide⟩

/-- C5 (amended): the inequality holds exactly when Short truncates — for a
whitespace-trimmed rendered text longer than 140 characters the Short
output is at most as long as the first-sentence truncation of the Medium
output; at 140 characters or fewer the Short output simply equals the
Medium output. -/
theorem C5_short_truncation_amended :
    (∀ (text : String) (req : ExcuseRequest) (g : RandState),
        pyStrip text = text → req.length = "Short" → 140 < text.length →
        ((vary text req g).1).length ≤
          (specFirstTruncation ((vary text { req with length := "Medium" } g).1)).length) ∧
    (∀ (text : String) (req : ExcuseRequest) (g : RandState),
        req.length = "Short" → text.length ≤ 140 →
        (vary text req g).1 = (vary text { req with length := "Medium" } g).1) := by
  constructor
  · intro text req g hstrip hS hlen
    have hMed : (vary text { req with length := "Medium" } g).1 = pyStrip text := rfl
    rw [hMed, hstrip]
    have hShort : (vary text req g).1 = pyStrip (firstSplit text ++ ".") := by
      unfold vary
      rw [hS, if_pos rfl, if_pos hlen]
    rw [hShort]
    unfold specFirstTruncation
    exact pyStrip_length_le _
  · intro text req g hS hle
    unfold vary
    rw [hS, if_pos rfl, if_neg (by omega)]
    rfl

/-- C5 witness for the amended claim: a 146-character trimmed text with a
sentence boundary; Short truncates and the inequality holds. -/
theorem C5_witness :
    ((vary (String.mk (List.replicate 141 'a') ++ ". end") cxReqShort ⟨0⟩).1).length ≤
      (specFirstTruncation ((vary (String.mk (List.replicate 141 'a') ++ ". end")
        { cxReqShort with length := "Medium" } ⟨0⟩).1)).length :=
  C5_short_truncation_amended.1 (String.mk (List.replicate 141 'a') ++ ". end") cxReqShort ⟨0⟩
    (by decide) rfl (by decide)

/-! ## Claim C2: persistence -/

/-- C2: each `persist` call appends exactly one newline-delimited dumped
record (ISO-8601 timestamp and the given text) to the day's
`.history/history_<YYYYMMDD>.jsonl` file, creating the `.history`
directory; N same-day calls starting from a fresh day file leave exactly
the N records in call order, each parsing back to its timestamp and its
exact text. -/
theorem flatMap_encode_newline (calls : List ((PyDateTime × PyDateTime) × String)) :
    calls.flatMap (fun c => encodeRecord (isoFormat c.1.2) c.2 ++ ['\n']) =
      (calls.map (fun c => encodeRecord (isoFormat c.1.2) c.2)).flatMap
        (fun r => r ++ ['\n']) := by
  induction calls with
  | nil => rfl
  | cons c rest ih => simp only [List.flatMap_cons, List.map_cons, ih]

theorem map_parse_encode (calls : List ((PyDateTime × PyDateTime) × String)) :
    (calls.map (fun c => encodeRecord (isoFormat c.1.2) c.2)).map parseRecord =
      calls.map (fun c => some (isoFormat c.1.2, c.2)) := by
  induction calls with
  | nil => rfl
  | cons c rest ih => simp only [List.map_cons, ih, parseRecord_encodeRecord]

set_option maxHeartbeats 1000000 in
theorem C2_persist_appends_roundtrip
    (calls : List ((PyDateTime × PyDateTime) × String)) (fs : FileSystem) (k : String)
    (hne : calls ≠ []) (hday : ∀ c ∈ calls, dateKey c.1.1 = k)
    (hfresh : fileContent fs (historyPath k) = []) :
    (runPersists calls fs).dirs.contains ".history" = true ∧
    linesOf (fileContent (runPersists calls fs) (historyPath k)) =
      calls.map (fun c => encodeRecord (isoFormat c.1.2) c.2) ∧
    (linesOf (fileContent (runPersists calls fs) (historyPath k))).map parseRecord =
      calls.map (fun c => some (isoFormat c.1.2, c.2)) := by
  have hcontent := runPersists_content calls fs k hday
  rw [hfresh, List.nil_append] at hcontent
  have hflat := flatMap_encode_newline calls
  have hnl : ∀ r ∈ calls.map (fun c => encodeRecord (isoFormat c.1.2) c.2), '\n' ∉ r := by
    intro r hr
    obtain ⟨c, _, hc⟩ := List.mem_map.mp hr
    exact hc ▸ encodeRecord_no_newline _ _
  have hlines : linesOf (fileContent (runPersists calls fs) (historyPath k)) =
      calls.map (fun c => encodeRecord (isoFormat c.1.2) c.2) := by
    rw [hcontent, hflat]
    exact linesOf_records _ hnl
  refine ⟨runPersists_dirs calls fs hne, hlines, ?_⟩
  rw [hlines]
  exact map_parse_encode calls

/-- A second clock reading for the C2 witness, later the same day. -/
def sampleNow2 : PyDateTime := { sampleNow with minute := 45, second := 0, microsecond := 31 }

def witnessCalls : List ((PyDateTime × PyDateTime) × String) :=
  [((sampleNow, sampleNow), "first excuse"),
   ((sampleNow2, sampleNow2), "second \"excuse\"")]

/-- C2 witness: two same-day persist calls on an empty filesystem leave the
directory created and the two records parseable in order. -/
theorem C2_witness :
    (runPersists witnessCalls ⟨[], []⟩).dirs.contains ".history" = true ∧
    linesOf (fileContent (runPersists witnessCalls ⟨[], []⟩) (historyPath "20261012")) =
      [encodeRecord (isoFormat sampleNow) "first excuse",
        encodeRecord (isoFormat sampleNow2) "second \"excuse\""] ∧
    (linesOf (fileContent (runPersists witnessCalls ⟨[], []⟩)
        (historyPath "20261012"))).map parseRecord =
      [some (isoFormat sampleNow, "first excuse"),
        some (isoFormat sampleNow2, "second \"excuse\"")] := by
  have h := C2_persist_appends_roundtrip witnessCalls ⟨[], []⟩ "20261012"
    (by simp [witnessCalls]) (by decide) rfl
  exact ⟨h.1, h.2.1, h.2.2⟩

end ExcuseSpec
